import Mathlib

/-!
Shallow embedding of the `Lottery` contract (`contracts/Lottery.sol`) and of the
oracle-dispatch layer the specification describes around it.

Conventions:
* EVM `uint256` values are modelled as `Nat`; the only arithmetic the contract
  performs where wrap/checked behaviour matters is the subtraction
  `block.timestamp - s_lastTimeStamp` in `checkUpkeep` (Solidity 0.8 reverts on
  underflow, modelled as an explicit `PanicArithmeticUnderflow` error) and the
  modulo `randomWords[0] % s_players.length` in `fulfillRandomWords`
  (Solidity 0.8 reverts with Panic(0x12) when the divisor is zero, modelled as
  `PanicDivModByZero`).
* A reverting call is an `Except.error`; revert semantics mean the contract
  storage is unchanged, which the `run*` wrappers make explicit by returning
  the pre-state on error.
* The success or failure of the low-level `recentWinner.call{value: ...}`
  payout is environmental (it depends on the winner's code), so it enters the
  model as an explicit boolean parameter `payoutOk`.
-/

namespace Lottery

/-- The `LotteryState` enum of the contract. -/
inductive LotteryStateEnum where
  | OPEN
  | CALCULATING
deriving DecidableEq, Repr, BEq

/-- Participant identifiers (Solidity `address payable`). -/
abbrev Address := Nat

/-- The contract's storage together with its immutables and its ether balance
(`address(this).balance`, the prize pool). -/
structure LState where
  entranceFee : Nat
  interval : Nat
  players : List Address
  recentWinner : Address
  lotteryState : LotteryStateEnum
  lastTimeStamp : Nat
  balance : Nat
deriving DecidableEq, Repr

/-- The custom errors of `Lottery.sol`, plus the two Solidity 0.8 arithmetic
panics the contract can raise. -/
inductive Err where
  | NotEnoughEther
  | NotOpen
  | TransferFailed
  | UpkeepNotNeeded (currentBalance : Nat) (numPlayers : Nat) (stateCode : Nat)
  | PanicArithmeticUnderflow
  | PanicDivModByZero
  | PanicIndexOutOfBounds
deriving DecidableEq, Repr

deriving instance DecidableEq for Except

/-- `uint256(s_lotteryState)`: the numeric code of an enum value. -/
def stateCode : LotteryStateEnum → Nat
  | .OPEN => 0
  | .CALCULATING => 1

/-- `enterLottery()`: `msg.value` is checked against the entrance fee first,
then the state must be `OPEN`; on success the sender is appended to
`s_players` and (by EVM call semantics) `msg.value` is credited to the
contract balance. -/
def enterLottery (s : LState) (sender : Address) (msgValue : Nat) : Except Err LState :=
  if msgValue < s.entranceFee then .error .NotEnoughEther
  else if s.lotteryState ≠ .OPEN then .error .NotOpen
  else .ok { s with players := s.players ++ [sender], balance := s.balance + msgValue }

/-- `checkUpkeep("")`: the four-way conjunction. `block.timestamp` is the
`nowTs` argument; the subtraction is checked (Solidity 0.8). -/
def checkUpkeep (s : LState) (nowTs : Nat) : Except Err Bool :=
  if nowTs < s.lastTimeStamp then .error .PanicArithmeticUnderflow
  else
    let isOpen : Bool := decide (LotteryStateEnum.OPEN = s.lotteryState)
    let timePassed : Bool := decide (nowTs - s.lastTimeStamp > s.interval)
    let hasPlayers : Bool := decide (s.players.length > 0)
    let hasBalance : Bool := decide (s.balance > 0)
    .ok (isOpen && timePassed && hasPlayers && hasBalance)

/-- `performUpkeep("")`: re-runs `checkUpkeep`, reverts with
`Lottery__UpkeepNotNeeded(address(this).balance, s_players.length,
uint256(s_lotteryState))` when it is false, otherwise sets the state to
`CALCULATING` and requests randomness; the coordinator's returned request id
(`reqId`, environmental) is emitted via `RequestLotteryWinner`, modelled as
the second component of the result. -/
def performUpkeep (s : LState) (nowTs : Nat) (reqId : Nat) : Except Err (LState × Nat) :=
  match checkUpkeep s nowTs with
  | .error e => .error e
  | .ok upkeepNedeed =>
    if !upkeepNedeed then
      .error (.UpkeepNotNeeded s.balance s.players.length (stateCode s.lotteryState))
    else
      .ok ({ s with lotteryState := .CALCULATING }, reqId)

/-- `fulfillRandomWords(uint256, uint256[] memory randomWords)`: the first
(request id) argument is unnamed and unused in the source. Reads
`randomWords[0]`, takes it modulo `s_players.length` (Panic(0x12) when there
are no players), stores the winner, reopens, clears the players, stamps the
time, and sends the whole balance to the winner, reverting with
`Lottery__TransferFailed` when the low-level call fails. -/
def fulfillRandomWords (s : LState) (_requestId : Nat) (randomWords : List Nat)
    (nowTs : Nat) (payoutOk : Bool) : Except Err LState :=
  match randomWords with
  | [] => .error .PanicIndexOutOfBounds
  | w :: _ =>
    if h : s.players.length = 0 then .error .PanicDivModByZero
    else
      let indexOfWinner := w % s.players.length
      let recentWinner :=
        s.players.get ⟨indexOfWinner, Nat.mod_lt _ (Nat.pos_of_ne_zero h)⟩
      if payoutOk then
        .ok { s with
                recentWinner := recentWinner
                lotteryState := .OPEN
                players := []
                lastTimeStamp := nowTs
                balance := 0 }
      else .error .TransferFailed

/-- Transaction-level view of `enterLottery`: the storage after the call,
reverts leaving it unchanged. -/
def runEnter (s : LState) (sender : Address) (msgValue : Nat) : LState :=
  match enterLottery s sender msgValue with
  | .ok s2 => s2
  | .error _ => s

/-- Transaction-level view of `performUpkeep`. -/
def runPerform (s : LState) (nowTs : Nat) (reqId : Nat) : LState :=
  match performUpkeep s nowTs reqId with
  | .ok (s2, _) => s2
  | .error _ => s

/-- Transaction-level view of `fulfillRandomWords`. -/
def runFulfill (s : LState) (requestId : Nat) (randomWords : List Nat)
    (nowTs : Nat) (payoutOk : Bool) : LState :=
  match fulfillRandomWords s requestId randomWords nowTs payoutOk with
  | .ok s2 => s2
  | .error _ => s

/-- Modelled from the spec: the system-level state adds the
`pendingRequestId` correlation token, which the contract itself does not
store — it is bookkeeping of the external randomness oracle (the VRF
coordinator), "present only while state == CALCULATING". -/
structure SysState where
  lot : LState
  pendingRequestId : Option Nat
deriving DecidableEq, Repr

/-- Modelled from the spec: `fulfillDraw(requestId, randomValue)` at the
system level. The oracle collaborator owns request-id matching: a fulfillment
whose `requestId` does not match the pending one "fails silently from the
state machine's perspective" (no call reaches the contract); a matching one
dispatches to the contract's `fulfillRandomWords`, and the id is consumed
exactly when the fulfillment transaction succeeds. -/
def fulfillDraw (σ : SysState) (requestId : Nat) (randomWords : List Nat)
    (nowTs : Nat) (payoutOk : Bool) : SysState :=
  if σ.pendingRequestId = some requestId then
    match fulfillRandomWords σ.lot requestId randomWords nowTs payoutOk with
    | .ok s2 => { lot := s2, pendingRequestId := none }
    | .error _ => σ
  else σ

/-- System-level view of a `checkUpkeep` call: it runs the contract's
`checkUpkeep` body (which contains no storage write) and the state after the
call, reverts included, is returned alongside the result. -/
def checkUpkeepPost (σ : SysState) (nowTs : Nat) : SysState × Except Err Bool :=
  (σ, checkUpkeep σ.lot nowTs)

/-- Sample state: open lottery, fee 1, interval 10, two players, balance 2. -/
def sOpen : LState := ⟨1, 10, [3, 4], 0, .OPEN, 0, 2⟩

/-- Sample state: calculating lottery, two players, balance 2. -/
def sCalc : LState := ⟨1, 10, [3, 4], 5, .CALCULATING, 0, 2⟩

/-- Sample system state: `sCalc` with pending request id 42. -/
def sysCalc : SysState := ⟨sCalc, some 42⟩

/-- C4: for every state and every contribution below the entrance fee,
`enterLottery` reverts with `Lottery__NotEnoughEther` (the spec's
`InsufficientContribution`), leaving all storage unchanged. -/
theorem c4_enter_insufficient (s : LState) (sender : Address) (c : Nat)
    (h : c < s.entranceFee) :
    enterLottery s sender c = .error .NotEnoughEther ∧ runEnter s sender c = s := by
  constructor <;> simp [enterLottery, runEnter, h]

/-- C4 witness: the generic theorem applied at a concrete state and input. -/
theorem c4_witness :
    (0 : Nat) < sOpen.entranceFee ∧
    (enterLottery sOpen 7 0 = .error .NotEnoughEther ∧ runEnter sOpen 7 0 = sOpen) :=
  ⟨by decide, c4_enter_insufficient sOpen 7 0 (by decide)⟩

/-- C5 counterexample: in the CALCULATING state with a contribution below the
entrance fee, `enterLottery` reverts with `Lottery__NotEnoughEther`, not with
`Lottery__NotOpen` — the value check comes first in the source. -/
theorem c5_counterexample :
    enterLottery sCalc 7 0 ≠ .error .NotOpen ∧
    enterLottery sCalc 7 0 = .error .NotEnoughEther := by
  decide

/-- C5 (amended): in the CALCULATING state, `enterLottery` with a contribution
at least the entrance fee reverts with `Lottery__NotOpen` (the spec's
`NotOpen`), leaving all storage unchanged. -/
theorem c5_enter_calculating (s : LState) (sender : Address) (c : Nat)
    (hs : s.lotteryState = .CALCULATING) (hc : s.entranceFee ≤ c) :
    enterLottery s sender c = .error .NotOpen ∧ runEnter s sender c = s := by
  have h1 : ¬ c < s.entranceFee := not_lt.mpr hc
  constructor <;> simp [enterLottery, runEnter, h1, hs]

/-- C5 witness: the amended theorem applied at a concrete state and input. -/
theorem c5_witness :
    sCalc.lotteryState = .CALCULATING ∧ sCalc.entranceFee ≤ 5 ∧
    (enterLottery sCalc 7 5 = .error .NotOpen ∧ runEnter sCalc 7 5 = sCalc) :=
  ⟨rfl, by decide, c5_enter_calculating sCalc 7 5 rfl (by decide)⟩

/-- C2: assuming time does not run backwards (the stored timestamp is at
most the current one — guaranteed on-chain), `checkUpkeep` returns `true`
exactly when the lottery is open, strictly more than `interval` has elapsed
since the last draw, there is at least one player, and the balance is
positive; it returns `false` exactly when that conjunction fails. -/
theorem c2_checkUpkeep_iff (s : LState) (nowTs : Nat) (h : s.lastTimeStamp ≤ nowTs) :
    (checkUpkeep s nowTs = .ok true ↔
      (s.lotteryState = .OPEN ∧ nowTs - s.lastTimeStamp > s.interval ∧
        s.players ≠ [] ∧ s.balance > 0)) ∧
    (checkUpkeep s nowTs = .ok false ↔
      ¬(s.lotteryState = .OPEN ∧ nowTs - s.lastTimeStamp > s.interval ∧
        s.players ≠ [] ∧ s.balance > 0)) := by
  have h2 : ¬ nowTs < s.lastTimeStamp := not_lt.mpr h
  cases hls : s.lotteryState <;>
    constructor <;>
      (simp [checkUpkeep, h2, hls, List.length_pos]; try tauto)

/-- C2 witness: the theorem applied at a concrete eligible state and time. -/
theorem c2_witness :
    sOpen.lastTimeStamp ≤ 11 ∧ checkUpkeep sOpen 11 = .ok true :=
  ⟨by decide, (c2_checkUpkeep_iff sOpen 11 (by decide)).1.mpr (by decide)⟩

/-- C6: when the internal re-check returns `false`, `performUpkeep` reverts
with `Lottery__UpkeepNotNeeded` carrying the current balance, player count
and numeric state, and the storage is unchanged; when it returns `true`,
`performUpkeep` only sets the state to `CALCULATING` and emits the
coordinator's request id. -/
theorem c6_performUpkeep (s : LState) (nowTs : Nat) (reqId : Nat) :
    (checkUpkeep s nowTs = .ok false →
      performUpkeep s nowTs reqId =
        .error (.UpkeepNotNeeded s.balance s.players.length (stateCode s.lotteryState)) ∧
      runPerform s nowTs reqId = s) ∧
    (checkUpkeep s nowTs = .ok true →
      performUpkeep s nowTs reqId = .ok ({ s with lotteryState := .CALCULATING }, reqId)) := by
  constructor
  · intro hc
    constructor <;> simp [performUpkeep, runPerform, hc]
  · intro hc
    simp [performUpkeep, hc]

/-- C6 witness: the theorem's two branches at concrete states — an eligible
open state and a CALCULATING state. -/
theorem c6_witness :
    checkUpkeep sOpen 11 = .ok true ∧ checkUpkeep sCalc 11 = .ok false ∧
    performUpkeep sOpen 11 42 = .ok ({ sOpen with lotteryState := .CALCULATING }, 42) ∧
    (performUpkeep sCalc 11 42 =
        .error (.UpkeepNotNeeded sCalc.balance sCalc.players.length
          (stateCode sCalc.lotteryState)) ∧
      runPerform sCalc 11 42 = sCalc) :=
  ⟨by decide, by decide, (c6_performUpkeep sOpen 11 42).2 (by decide),
    (c6_performUpkeep sCalc 11 42).1 (by decide)⟩

/-- C1: a fulfillment whose request id matches the pending one, on a state
with at least one player and with a succeeding payout, sets `recentWinner`
to the player at index `randomValue mod players.length`, clears the players,
reopens the lottery, zeroes the balance (the whole prize pool is sent to the
winner), and stamps `lastTimeStamp` with the fulfillment time. -/
theorem c1_fulfill_matching (σ : SysState) (rid r nowTs : Nat)
    (hp : σ.pendingRequestId = some rid) (hne : σ.lot.players ≠ []) :
    (fulfillDraw σ rid [r] nowTs true).lot.recentWinner
        = σ.lot.players.getD (r % σ.lot.players.length) 0 ∧
    (fulfillDraw σ rid [r] nowTs true).lot.players = [] ∧
    (fulfillDraw σ rid [r] nowTs true).lot.lotteryState = .OPEN ∧
    (fulfillDraw σ rid [r] nowTs true).lot.balance = 0 ∧
    (fulfillDraw σ rid [r] nowTs true).lot.lastTimeStamp = nowTs := by
  have h0 : ¬ σ.lot.players.length = 0 := fun hl => hne (List.length_eq_zero.mp hl)
  have hlt : r % σ.lot.players.length < σ.lot.players.length :=
    Nat.mod_lt _ (Nat.pos_of_ne_zero h0)
  simp [fulfillDraw, hp, fulfillRandomWords, h0, List.getElem?_eq_getElem hlt]

/-- C1 witness: two players, random value 7, `7 mod 2 = 1`, so player `4`
wins; the state reopens empty with a zero balance at time 99. -/
theorem c1_witness :
    sysCalc.pendingRequestId = some 42 ∧ sysCalc.lot.players ≠ [] ∧
    ((fulfillDraw sysCalc 42 [7] 99 true).lot.recentWinner
        = sysCalc.lot.players.getD (7 % sysCalc.lot.players.length) 0 ∧
      (fulfillDraw sysCalc 42 [7] 99 true).lot.players = [] ∧
      (fulfillDraw sysCalc 42 [7] 99 true).lot.lotteryState = .OPEN ∧
      (fulfillDraw sysCalc 42 [7] 99 true).lot.balance = 0 ∧
      (fulfillDraw sysCalc 42 [7] 99 true).lot.lastTimeStamp = 99) :=
  ⟨rfl, by decide, c1_fulfill_matching sysCalc 42 7 99 rfl (by decide)⟩

/-- C3: when the payout call fails, `fulfillRandomWords` reverts with
`Lottery__TransferFailed` (the spec's `PayoutFailed`), so the whole
fulfillment is rolled back: the system state is unchanged — still
CALCULATING, with the same players, recent winner and timestamp. -/
theorem c3_payout_failure (σ : SysState) (rid r nowTs : Nat)
    (hp : σ.pendingRequestId = some rid) (hne : σ.lot.players ≠ [])
    (hs : σ.lot.lotteryState = .CALCULATING) :
    fulfillRandomWords σ.lot rid [r] nowTs false = .error .TransferFailed ∧
    fulfillDraw σ rid [r] nowTs false = σ ∧
    (fulfillDraw σ rid [r] nowTs false).lot.lotteryState = .CALCULATING ∧
    (fulfillDraw σ rid [r] nowTs false).lot.players = σ.lot.players ∧
    (fulfillDraw σ rid [r] nowTs false).lot.recentWinner = σ.lot.recentWinner ∧
    (fulfillDraw σ rid [r] nowTs false).lot.lastTimeStamp = σ.lot.lastTimeStamp := by
  have h0 : ¬ σ.lot.players.length = 0 := fun hl => hne (List.length_eq_zero.mp hl)
  have hf : fulfillRandomWords σ.lot rid [r] nowTs false = .error .TransferFailed := by
    simp [fulfillRandomWords, h0]
  have hd : fulfillDraw σ rid [r] nowTs false = σ := by
    simp [fulfillDraw, hp, hf]
  exact ⟨hf, hd, by rw [hd, hs], by rw [hd], by rw [hd], by rw [hd]⟩

/-- C3 witness: the theorem at a concrete CALCULATING state with a failing
payout. -/
theorem c3_witness :
    sysCalc.pendingRequestId = some 42 ∧ sysCalc.lot.players ≠ [] ∧
    sysCalc.lot.lotteryState = .CALCULATING ∧
    (fulfillRandomWords sysCalc.lot 42 [7] 99 false = .error .TransferFailed ∧
      fulfillDraw sysCalc 42 [7] 99 false = sysCalc ∧
      (fulfillDraw sysCalc 42 [7] 99 false).lot.lotteryState = .CALCULATING ∧
      (fulfillDraw sysCalc 42 [7] 99 false).lot.players = sysCalc.lot.players ∧
      (fulfillDraw sysCalc 42 [7] 99 false).lot.recentWinner = sysCalc.lot.recentWinner ∧
      (fulfillDraw sysCalc 42 [7] 99 false).lot.lastTimeStamp = sysCalc.lot.lastTimeStamp) :=
  ⟨rfl, by decide, rfl, c3_payout_failure sysCalc 42 7 99 rfl (by decide) rfl⟩

/-- C7: a fulfillment whose request id does not match the pending one leaves
the system state — in particular the players sequence and the state field —
unchanged. -/
theorem c7_nonmatching (σ : SysState) (rid : Nat) (randomWords : List Nat)
    (nowTs : Nat) (payoutOk : Bool) (h : σ.pendingRequestId ≠ some rid) :
    fulfillDraw σ rid randomWords nowTs payoutOk = σ ∧
    (fulfillDraw σ rid randomWords nowTs payoutOk).lot.players = σ.lot.players ∧
    (fulfillDraw σ rid randomWords nowTs payoutOk).lot.lotteryState = σ.lot.lotteryState := by
  have hd : fulfillDraw σ rid randomWords nowTs payoutOk = σ := by
    simp [fulfillDraw, h]
  exact ⟨hd, by rw [hd], by rw [hd]⟩

/-- C7 witness: fulfilling with id 41 while id 42 is pending changes
nothing. -/
theorem c7_witness :
    sysCalc.pendingRequestId ≠ some 41 ∧
    (fulfillDraw sysCalc 41 [7] 99 true = sysCalc ∧
      (fulfillDraw sysCalc 41 [7] 99 true).lot.players = sysCalc.lot.players ∧
      (fulfillDraw sysCalc 41 [7] 99 true).lot.lotteryState = sysCalc.lot.lotteryState) :=
  ⟨by decide, c7_nonmatching sysCalc 41 [7] 99 true (by decide)⟩

/-- C8: `checkUpkeep` is read-only: after a call, every field of the system
state — state, players, balance (prize pool), last draw timestamp, recent
winner and pending request id — equals its value before the call. -/
theorem c8_checkUpkeep_frame (σ : SysState) (nowTs : Nat) :
    (checkUpkeepPost σ nowTs).1.lot.lotteryState = σ.lot.lotteryState ∧
    (checkUpkeepPost σ nowTs).1.lot.players = σ.lot.players ∧
    (checkUpkeepPost σ nowTs).1.lot.balance = σ.lot.balance ∧
    (checkUpkeepPost σ nowTs).1.lot.lastTimeStamp = σ.lot.lastTimeStamp ∧
    (checkUpkeepPost σ nowTs).1.lot.recentWinner = σ.lot.recentWinner ∧
    (checkUpkeepPost σ nowTs).1.pendingRequestId = σ.pendingRequestId := by
  simp [checkUpkeepPost]

/-- C9: with at least one player the winner index `randomValue mod
players.length` is in bounds, so the array access cannot fail; with no
players `fulfillRandomWords` reverts with the division/modulo-by-zero
panic instead of selecting a winner. -/
theorem c9_winner_index (s : LState) (rid r nowTs : Nat) (payoutOk : Bool) :
    (s.players ≠ [] → r % s.players.length < s.players.length) ∧
    (s.players = [] →
      fulfillRandomWords s rid [r] nowTs payoutOk = .error .PanicDivModByZero) := by
  constructor
  · intro hne
    exact Nat.mod_lt _ (List.length_pos.mpr hne)
  · intro he
    simp [fulfillRandomWords, he]

/-- C9 witness: both branches of the theorem at concrete states — two
players give an in-bounds index, an empty lottery panics. -/
theorem c9_witness :
    (7 % sCalc.players.length < sCalc.players.length) ∧
    fulfillRandomWords { sCalc with players := [] } 42 [7] 99 true
      = .error .PanicDivModByZero :=
  ⟨(c9_winner_index sCalc 42 7 99 true).1 (by decide),
    (c9_winner_index { sCalc with players := [] } 42 7 99 true).2 rfl⟩

/-- C10: `fulfillRandomWords` ignores its request-id argument: for any two
request ids and otherwise identical inputs, the results are identical. -/
theorem c10_requestId_irrelevant (s : LState) (rid1 rid2 : Nat)
    (randomWords : List Nat) (nowTs : Nat) (payoutOk : Bool) :
    fulfillRandomWords s rid1 randomWords nowTs payoutOk =
      fulfillRandomWords s rid2 randomWords nowTs payoutOk := rfl

end Lottery
